import Mathlib

/-!
Shallow embedding of the FindoraNetwork/tendermint-rpc client library
(src/response.rs, src/query.rs, src/client.rs) together with the models of
the pieces the repository only declares (the error taxonomy, the JSON-RPC
protocol version, request identifiers), and proofs of the specification's
claims about it.
-/

namespace TmRpc

/-- Modelled from the spec: the error taxonomy of §7 (`InvalidParams`,
`ServerError`, `ClientInternalError`, connection/transport failure) plus the
parse-failure class used by `Response::from_string`; the `error` module itself
is not among the repository's source files.  Each class carries its message. -/
inductive Error where
  | parse_error (msg : String)
  | server_error (msg : String)
  | invalid_params (msg : String)
  | client_internal_error (msg : String)
  | connection_closed (msg : String)
  deriving Repr, DecidableEq

/-- Modelled from the spec: the JSON-RPC protocol version carried by the wire
envelope (`"jsonrpc": "<version>"`, §6); the `version` module is not among the
repository's source files.  A version is its wire string. -/
structure Version where
  s : String
  deriving Repr, DecidableEq

/-- Modelled from the spec: the single supported JSON-RPC protocol version. -/
def supportedVersion : String := "2.0"

/-- Modelled from the spec: whether this version matches the supported
protocol version. -/
def Version.isSupported (v : Version) : Bool :=
  v.s == supportedVersion

/-- Modelled from the spec: "version must match a supported protocol version
or the whole message is rejected" with a `ServerError`-class failure (§4.2). -/
def Version.ensure_supported (v : Version) : Except Error Unit :=
  if v.isSupported then Except.ok ()
  else Except.error (Error.server_error ("unsupported RPC version: " ++ v.s))

/-- Modelled from the spec: a request identifier, "a value (string or integer)
chosen by the caller side" (§3); the `id` module is not among the repository's
source files. -/
inductive Id where
  | num (n : Int)
  | str (s : String)
  deriving Repr, DecidableEq

/-- `Wrapper<R>` from src/response.rs: the JSON-RPC response envelope with a
version, an identifier, an optional result and an optional error. -/
structure Wrapper (R : Type) where
  jsonrpc : Version
  id : Id
  result : Option R
  error : Option Error
  deriving Repr, DecidableEq

/-- `Wrapper::into_result` from src/response.rs: ensure the version is
supported, then return the carried error if present, else the result if
present, else a server error for a malformed wrapper. -/
def Wrapper.into_result {R : Type} (w : Wrapper R) : Except Error R :=
  match w.jsonrpc.ensure_supported with
  | Except.error e => Except.error e
  | Except.ok _ =>
    match w.error with
    | some error => Except.error error
    | none =>
      match w.result with
      | some result => Except.ok result
      | none =>
        Except.error (Error.server_error
          "server returned malformatted JSON (no 'result' or 'error')")

/-- A JSON value, the abstract form of the byte sequences `from_string` and
`from_reader` decode (lexing bytes into this tree is serde_json's job, an
external collaborator). -/
inductive Json where
  | null
  | bool (b : Bool)
  | num (n : Int)
  | str (s : String)
  | arr (elems : List Json)
  | obj (fields : List (String × Json))
  deriving Repr

/-- Look up a field of a JSON object, as serde matches struct field names. -/
def Json.getField (fields : List (String × Json)) (key : String) : Option Json :=
  (fields.find? (fun p => p.fst == key)).map Prod.snd

/-- serde semantics for an `Option<T>` struct field: a missing field and a
JSON `null` both decode to `None`; a present non-null value must decode. -/
def decodeOptField {A : Type} (dec : Json → Option A) :
    Option Json → Option (Option A)
  | none => some none
  | some Json.null => some none
  | some j => (dec j).map some

/-- Modelled from the spec: `Version` deserializes from its wire string
(`"jsonrpc": "<version>"`, §6). -/
def decodeVersion : Json → Option Version
  | Json.str s => some ⟨s⟩
  | _ => none

/-- Modelled from the spec: `Id` deserializes from a JSON string or integer
(`"id": <string|int>`, §6). -/
def decodeId : Json → Option Id
  | Json.num n => some (Id.num n)
  | Json.str s => some (Id.str s)
  | _ => none

/-- Deserialization of `Wrapper<R>` (its serde derive in src/response.rs):
`jsonrpc` and `id` are required, `result` and `error` are `Option` fields,
so each may be missing or null.  `decR` decodes the result payload type `R`
and `decE` the error payload. -/
def decodeWrapper {R : Type} (decR : Json → Option R)
    (decE : Json → Option Error) : Json → Option (Wrapper R)
  | Json.obj fields => do
    let jv ← Json.getField fields "jsonrpc"
    let jsonrpc ← decodeVersion jv
    let iv ← Json.getField fields "id"
    let id ← decodeId iv
    let result ← decodeOptField decR (Json.getField fields "result")
    let error ← decodeOptField decE (Json.getField fields "error")
    pure ⟨jsonrpc, id, result, error⟩
  | _ => none

/-- `Response::from_string` from src/response.rs: decode the wrapper (a
failure becomes a parse error) and then `into_result` it.  `from_reader` is
the same logic over an `io::Reader`. -/
def from_string {R : Type} (decR : Json → Option R)
    (decE : Json → Option Error) (j : Json) : Except Error R :=
  match decodeWrapper decR decE j with
  | none => Except.error (Error.parse_error "error parsing response")
  | some wrapper => wrapper.into_result

/-- `EventType` from src/query.rs: the event types one can query for. -/
inductive EventType where
  | NewBlock
  | Tx
  deriving Repr, DecidableEq

/-- `impl fmt::Display for EventType` from src/query.rs. -/
def EventType.render : EventType → String
  | EventType.NewBlock => "NewBlock"
  | EventType.Tx => "Tx"

/-- `impl FromStr for EventType` from src/query.rs: exactly the literals
"NewBlock" and "Tx" parse; anything else is an invalid-params error carrying
the offending string. -/
def EventType.from_str (s : String) : Except Error EventType :=
  match s with
  | "NewBlock" => Except.ok EventType.NewBlock
  | "Tx" => Except.ok EventType.Tx
  | invalid =>
    Except.error (Error.invalid_params ("unrecognized event type: " ++ invalid))

/-- A calendar date (chrono's `Date<Utc>`, an external collaborator), as the
year/month/day it formats from. -/
structure UtcDate where
  year : Int
  month : Nat
  day : Nat
  deriving Repr, DecidableEq

/-- Zero-pad a number to at least `width` digits, as chrono's numeric
formatting items do. -/
def padNum (width : Nat) (n : Nat) : String :=
  let digits := toString n
  let pad := width - digits.length
  String.mk (List.replicate pad '0') ++ digits

/-- chrono's `d.format("%Y-%m-%d")` for a UTC date: the year zero-padded to
4 digits (negative years keep their sign), month and day to 2. -/
def UtcDate.formatYmd (d : UtcDate) : String :=
  (if d.year < 0 then "-" ++ padNum 4 d.year.natAbs else padNum 4 d.year.natAbs)
    ++ "-" ++ padNum 2 d.month ++ "-" ++ padNum 2 d.day

/-- A `DateTime<Utc>` (chrono, an external collaborator), as the calendar
fields it formats from. -/
structure UtcDateTime where
  date : UtcDate
  hour : Nat
  minute : Nat
  second : Nat
  nano : Nat
  deriving Repr, DecidableEq

/-- chrono's fractional-second part under `SecondsFormat::AutoSi` (used by
`to_rfc3339`): nothing when the nanoseconds are zero, else 3, 6 or 9 digits
as needed. -/
def fracAutoSi (nano : Nat) : String :=
  if nano = 0 then ""
  else if nano % 1000000 = 0 then "." ++ padNum 3 (nano / 1000000)
  else if nano % 1000 = 0 then "." ++ padNum 6 (nano / 1000)
  else "." ++ padNum 9 nano

/-- chrono's `DateTime::<Utc>::to_rfc3339`: date, `T`, time, optional
fraction, and the UTC offset `+00:00`. -/
def UtcDateTime.to_rfc3339 (t : UtcDateTime) : String :=
  t.date.formatYmd ++ "T" ++ padNum 2 t.hour ++ ":" ++ padNum 2 t.minute
    ++ ":" ++ padNum 2 t.second ++ fracAutoSi t.nano ++ "+00:00"

/-- An `f64` together with its standard `Display` rendering; the library
delegates float rendering entirely to Rust's standard formatter (an external
collaborator), so only the rendered text matters here. -/
structure F64 where
  rendered : String
  deriving Repr, DecidableEq

/-- `Operand` from src/query.rs: a typed operand for use in a condition.
The constructors embed the Rust variants `String`, `Signed`, `Unsigned`,
`Float`, `Date` and `DateTime` (lower-cased so they do not shadow the
ambient types of the same names). -/
inductive Operand where
  | string (s : String)
  | signed (i : Int)
  | unsigned (u : Nat)
  | float (h : F64)
  | date (d : UtcDate)
  | dateTime (dt : UtcDateTime)
  deriving Repr, DecidableEq

/-- `escape` from src/query.rs: escape backslashes and single quotes within
the given string with a backslash, then wrap it in single quotes. -/
def escape (s : String) : String :=
  let result := s.data.foldl
    (fun acc ch => if ch == '\\' || ch == '\'' then acc ++ ['\\', ch] else acc ++ [ch])
    []
  "'" ++ String.mk result ++ "'"

/-- `impl fmt::Display for Operand` from src/query.rs. -/
def Operand.render : Operand → String
  | Operand.string s => escape s
  | Operand.signed i => toString i
  | Operand.unsigned u => toString u
  | Operand.float h => h.rendered
  | Operand.date d => "DATE " ++ d.formatYmd
  | Operand.dateTime dt => "TIME " ++ dt.to_rfc3339

/-- `Condition` from src/query.rs: the condition kinds a query supports. -/
inductive Condition where
  | Eq (key : String) (op : Operand)
  | Lt (key : String) (op : Operand)
  | Lte (key : String) (op : Operand)
  | Gt (key : String) (op : Operand)
  | Gte (key : String) (op : Operand)
  | Contains (key : String) (op : String)
  | Exists (key : String)
  deriving Repr, DecidableEq

/-- `impl fmt::Display for Condition` from src/query.rs. -/
def Condition.render : Condition → String
  | Condition.Eq key op => key ++ " = " ++ op.render
  | Condition.Lt key op => key ++ " < " ++ op.render
  | Condition.Lte key op => key ++ " <= " ++ op.render
  | Condition.Gt key op => key ++ " > " ++ op.render
  | Condition.Gte key op => key ++ " >= " ++ op.render
  | Condition.Contains key op => key ++ " CONTAINS " ++ escape op
  | Condition.Exists key => key ++ " EXISTS"

/-- `Query` from src/query.rs: at most one event type and zero or more
conditions, joined exclusively by logical ANDs. -/
structure Query where
  event_type : Option EventType
  conditions : List Condition
  deriving Repr, DecidableEq

namespace Query

/-- `Query::eq` from src/query.rs. -/
def eq (key : String) (value : Operand) : Query :=
  ⟨none, [Condition.Eq key value]⟩

/-- `Query::lt` from src/query.rs. -/
def lt (key : String) (value : Operand) : Query :=
  ⟨none, [Condition.Lt key value]⟩

/-- `Query::lte` from src/query.rs. -/
def lte (key : String) (value : Operand) : Query :=
  ⟨none, [Condition.Lte key value]⟩

/-- `Query::gt` from src/query.rs. -/
def gt (key : String) (value : Operand) : Query :=
  ⟨none, [Condition.Gt key value]⟩

/-- `Query::gte` from src/query.rs. -/
def gte (key : String) (value : Operand) : Query :=
  ⟨none, [Condition.Gte key value]⟩

/-- `Query::contains` from src/query.rs. -/
def contains (key : String) (value : String) : Query :=
  ⟨none, [Condition.Contains key value]⟩

/-- `Query::exists` from src/query.rs. -/
def exists_ (key : String) : Query :=
  ⟨none, [Condition.Exists key]⟩

/-- `Query::and_eq` from src/query.rs: push the condition onto the list. -/
def and_eq (q : Query) (key : String) (value : Operand) : Query :=
  { q with conditions := q.conditions ++ [Condition.Eq key value] }

/-- `Query::and_lt` from src/query.rs. -/
def and_lt (q : Query) (key : String) (value : Operand) : Query :=
  { q with conditions := q.conditions ++ [Condition.Lt key value] }

/-- `Query::and_lte` from src/query.rs. -/
def and_lte (q : Query) (key : String) (value : Operand) : Query :=
  { q with conditions := q.conditions ++ [Condition.Lte key value] }

/-- `Query::and_gt` from src/query.rs. -/
def and_gt (q : Query) (key : String) (value : Operand) : Query :=
  { q with conditions := q.conditions ++ [Condition.Gt key value] }

/-- `Query::and_gte` from src/query.rs. -/
def and_gte (q : Query) (key : String) (value : Operand) : Query :=
  { q with conditions := q.conditions ++ [Condition.Gte key value] }

/-- `Query::and_contains` from src/query.rs. -/
def and_contains (q : Query) (key : String) (value : String) : Query :=
  { q with conditions := q.conditions ++ [Condition.Contains key value] }

/-- `Query::and_exists` from src/query.rs. -/
def and_exists (q : Query) (key : String) : Query :=
  { q with conditions := q.conditions ++ [Condition.Exists key] }

/-- `impl Default for Query` from src/query.rs: the empty query. -/
def default : Query := ⟨none, []⟩

/-- `impl From<EventType> for Query` from src/query.rs. -/
def fromEventType (t : EventType) : Query := ⟨some t, []⟩

end Query

/-- The `join` helper from src/query.rs, applied to already-rendered items:
write the first item, then each remaining item preceded by the separator. -/
def joinRendered (separator : String) : List String → String
  | [] => ""
  | first :: rest =>
    rest.foldl (fun acc item => acc ++ separator ++ item) first

/-- `impl fmt::Display for Query` from src/query.rs: the event-type clause
first when present, an " AND " bridge when conditions follow it, then the
conditions joined by " AND ". -/
def Query.render (q : Query) : String :=
  (match q.event_type with
   | some t =>
     "tm.event = '" ++ t.render ++ "'"
       ++ (if q.conditions.isEmpty then "" else " AND ")
   | none => "")
    ++ joinRendered " AND " (q.conditions.map Condition.render)

/-- The poll interval of `Client::wait_until_healthy` in src/client.rs:
200 milliseconds. -/
def pollIntervalMs : Nat := 200

/-- The loop of `Client::wait_until_healthy` from src/client.rs.  `health i`
is the outcome of the `i`-th `/health` probe (true = the probe succeeded);
the `i`-th iteration of the Rust `while` loop awaits exactly that probe.
When a probe succeeds the loop exits with `Ok`; when one fails with no
attempts remaining, the call fails with a `ClientInternalError` carrying the
caller's timeout in milliseconds; otherwise the loop sleeps one interval and
retries. -/
def waitLoop (health : Nat → Bool) (timeoutMs : Nat) :
    Nat → Nat → Except Error Unit
  | attemptsRemaining, i =>
    if health i then Except.ok ()
    else
      match attemptsRemaining with
      | 0 =>
        Except.error (Error.client_internal_error
          ("timed out waiting for healthy response after "
            ++ toString timeoutMs ++ "ms"))
      | n + 1 => waitLoop health timeoutMs n (i + 1)

/-- `Client::wait_until_healthy` from src/client.rs: the number of remaining
attempts starts at `timeout / poll_interval` (integer division of the
millisecond counts). -/
def wait_until_healthy (health : Nat → Bool) (timeoutMs : Nat) :
    Except Error Unit :=
  waitLoop health timeoutMs (timeoutMs / pollIntervalMs) 0

/-- `validators::Response` (its fields as src/client.rs uses them: the block
height, the validator list of this page, and the server-reported total as an
`i32`).  `V` is the validator-info payload type. -/
structure ValidatorsResponse (V : Type) where
  block_height : Nat
  validators : List V
  total : Int
  deriving Repr, DecidableEq

/-- Rust's `as i32` cast from `usize` (used in `validators.len() as i32` in
src/client.rs): reduce modulo 2^32 and reinterpret as a signed 32-bit
value. -/
def i32ofNat (n : Nat) : Int :=
  let m : Nat := n % 2 ^ 32
  if m < 2 ^ 31 then (m : Int) else (m : Int) - 2 ^ 32

/-- The `Paging::All` loop of `Client::validators` from src/client.rs.
`perform p` is the outcome of `self.perform(validators::Request::new(Some
(height), Some(p), Some(per_page)))` — the height and the per-page count are
fixed for the whole loop, so the request is determined by the page number.
The Rust loop has no bound of its own; `fuel` counts how many further
iterations we unfold, and `none` means the loop is still running after
`fuel` iterations.  Accumulated validators are extended in arrival order and
the loop returns exactly when the accumulated count, cast to `i32`, equals
the server-reported total of the page just received. -/
def validatorsAllLoop {V : Type}
    (perform : Nat → Except Error (ValidatorsResponse V)) :
    Nat → Nat → List V → Option (Except Error (ValidatorsResponse V))
  | 0, _, _ => none
  | fuel + 1, pageNum, acc =>
    match perform pageNum with
    | Except.error e => some (Except.error e)
    | Except.ok response =>
      let validators := acc ++ response.validators
      if i32ofNat validators.length = response.total then
        some (Except.ok ⟨response.block_height, validators, response.total⟩)
      else
        validatorsAllLoop perform fuel (pageNum + 1) validators

/-- `Client::validators` with `Paging::All` from src/client.rs: start at
page 1 with an empty accumulator. -/
def validatorsAll {V : Type}
    (perform : Nat → Except Error (ValidatorsResponse V)) (fuel : Nat) :
    Option (Except Error (ValidatorsResponse V)) :=
  validatorsAllLoop perform fuel 1 []

/-! Claim-side definitions: restatements of the specification's wording, to
be compared against the definitions embedded from the source above. -/

/-- The spec's description of rendering (§3): the event-type clause (if
present) and then the conditions, in order, joined by " AND ". -/
def Query.renderSpec (q : Query) : String :=
  String.intercalate " AND "
    ((match q.event_type with
      | some t => ["tm.event = '" ++ t.render ++ "'"]
      | none => []) ++ q.conditions.map Condition.render)

/-- The spec's description of escaping, on the character list: each
backslash and each single quote is prefixed with a backslash. -/
def escapeChars : List Char → List Char
  | [] => []
  | c :: cs =>
    (if c = '\\' ∨ c = '\'' then ['\\', c] else [c]) ++ escapeChars cs

/-- The spec's description of `escape`: prefix each backslash and single
quote with a backslash and wrap the result in single quotes. -/
def escapeSpec (s : String) : String :=
  "'" ++ String.mk (escapeChars s.data) ++ "'"

/-- A serde decoder for a bare natural-number result payload, used to
instantiate the generic envelope at a concrete payload type. -/
def decodeNatPayload : Json → Option Nat
  | Json.num n => if n < 0 then none else some n.toNat
  | _ => none

/-- Modelled from the spec: a decoder for the error payload carried by the
envelope's `error` field ("an error payload returned by the peer", §7); the
error module's wire shape is not among the repository's source files, so the
payload is its message. -/
def decodeErrorPayload : Json → Option Error
  | Json.str s => some (Error.server_error s)
  | _ => none

/-- The validators delivered by pages 1 through `k`, concatenated in page
order: the value the `Paging::All` loop accumulates after consuming `k`
pages when the server answers page `p` with `resp p`. -/
def pagesConcat {V : Type} (resp : Nat → ValidatorsResponse V) :
    Nat → List V
  | 0 => []
  | k + 1 => pagesConcat resp k ++ (resp (k + 1)).validators

/-! Theorems settling the claims. -/

/-- C8: the empty `Query` (no event type, no conditions, i.e.
`Query::default()`) renders to the empty string. -/
theorem c8_empty_query_renders_empty : Query.render Query.default = "" := rfl

/-- C10: for every envelope whose version is supported and in which both a
result and an error are present, `Wrapper::into_result` returns the carried
error, never the result. -/
theorem c10_error_precedence {R : Type} (v : Version) (id : Id) (r : R)
    (e : Error) (h : v.isSupported = true) :
    Wrapper.into_result ⟨v, id, some r, some e⟩ = Except.error e := by
  simp [Wrapper.into_result, Version.ensure_supported, h]

/-- Witness for C10 at a concrete envelope. -/
theorem c10_error_precedence_witness :
    Wrapper.into_result ⟨⟨"2.0"⟩, Id.num 1, some (42 : Nat),
      some (Error.server_error "boom")⟩
      = Except.error (Error.server_error "boom") :=
  c10_error_precedence ⟨"2.0"⟩ (Id.num 1) 42 (Error.server_error "boom") rfl

/-- C1 counterexample: the claim says `into_result` "returns the result
payload if present, else the carried error"; on a supported-version envelope
carrying both, the code returns the carried error even though the result is
present, so it does not return the present result payload. -/
theorem c1_into_result_counterexample :
    (Wrapper.mk ⟨"2.0"⟩ (Id.num 1) (some (42 : Nat))
        (some (Error.server_error "boom"))).result = some 42
      ∧ (Version.mk "2.0").isSupported = true
      ∧ Wrapper.into_result
          (Wrapper.mk ⟨"2.0"⟩ (Id.num 1) (some (42 : Nat))
            (some (Error.server_error "boom")))
          ≠ Except.ok 42
      ∧ Wrapper.into_result
          (Wrapper.mk ⟨"2.0"⟩ (Id.num 1) (some (42 : Nat))
            (some (Error.server_error "boom")))
          = Except.error (Error.server_error "boom") :=
  ⟨rfl, rfl, by simp [Wrapper.into_result, Version.ensure_supported,
    Version.isSupported, supportedVersion], rfl⟩

/-- C1 (amended): `into_result` first verifies the protocol version (an
unsupported version is rejected with a `ServerError`-class error without
inspecting `result`/`error`), then returns the carried error if present,
else the result payload if present, else fails with a `ServerError`-class
error when neither is present. -/
theorem c1_into_result_amended :
    (∀ (R : Type) (w : Wrapper R), w.jsonrpc.isSupported = false →
      w.into_result = Except.error
        (Error.server_error ("unsupported RPC version: " ++ w.jsonrpc.s)))
    ∧ (∀ (R : Type) (w : Wrapper R) (e : Error),
        w.jsonrpc.isSupported = true → w.error = some e →
        w.into_result = Except.error e)
    ∧ (∀ (R : Type) (w : Wrapper R) (r : R),
        w.jsonrpc.isSupported = true → w.error = none → w.result = some r →
        w.into_result = Except.ok r)
    ∧ (∀ (R : Type) (w : Wrapper R),
        w.jsonrpc.isSupported = true → w.error = none → w.result = none →
        w.into_result = Except.error (Error.server_error
          "server returned malformatted JSON (no 'result' or 'error')")) := by
  refine ⟨?_, ?_, ?_, ?_⟩ <;>
    intros R w <;>
    simp [Wrapper.into_result, Version.ensure_supported] <;>
    intros <;>
    simp_all

/-- Witness for C1 (amended) at concrete envelopes: one per case. -/
theorem c1_into_result_amended_witness :
    Wrapper.into_result (Wrapper.mk ⟨"1.0"⟩ (Id.num 1) (some (7 : Nat)) none)
        = Except.error (Error.server_error "unsupported RPC version: 1.0")
      ∧ Wrapper.into_result
          (Wrapper.mk ⟨"2.0"⟩ (Id.num 1) (some (7 : Nat))
            (some (Error.server_error "boom")))
          = Except.error (Error.server_error "boom")
      ∧ Wrapper.into_result (Wrapper.mk ⟨"2.0"⟩ (Id.num 1) (some (7 : Nat)) none)
          = Except.ok 7
      ∧ Wrapper.into_result ((Wrapper.mk ⟨"2.0"⟩ (Id.num 1) none none) :
            Wrapper Nat)
          = Except.error (Error.server_error
              "server returned malformatted JSON (no 'result' or 'error')") :=
  ⟨c1_into_result_amended.1 Nat _ rfl,
   c1_into_result_amended.2.1 Nat _ (Error.server_error "boom") rfl rfl,
   c1_into_result_amended.2.2.1 Nat _ 7 rfl rfl rfl,
   c1_into_result_amended.2.2.2 Nat _ rfl rfl rfl⟩

/-- C7: `EventType::from_str` succeeds exactly on the literals "NewBlock"
and "Tx" (returning the corresponding variant); every other input fails with
an `InvalidParams`-class error whose message carries the offending string;
in particular "Bogus" fails carrying "Bogus". -/
theorem c7_event_type_from_str :
    EventType.from_str "NewBlock" = Except.ok EventType.NewBlock
      ∧ EventType.from_str "Tx" = Except.ok EventType.Tx
      ∧ (∀ s : String, s ≠ "NewBlock" → s ≠ "Tx" →
          EventType.from_str s = Except.error
            (Error.invalid_params ("unrecognized event type: " ++ s)))
      ∧ EventType.from_str "Bogus" = Except.error
          (Error.invalid_params "unrecognized event type: Bogus") := by
  refine ⟨rfl, rfl, ?_, rfl⟩
  intro s h1 h2
  unfold EventType.from_str
  split <;> simp_all

/-- Witness for C7 at the concrete offending string "Bogus". -/
theorem c7_event_type_from_str_witness :
    EventType.from_str "Bogus" = Except.error
      (Error.invalid_params ("unrecognized event type: " ++ "Bogus")) :=
  c7_event_type_from_str.2.2.1 "Bogus" (by decide) (by decide)

theorem intercalate_go_eq_foldl (sep : String) :
    ∀ (l : List String) (acc : String),
      String.intercalate.go acc sep l
        = l.foldl (fun a x => a ++ sep ++ x) acc := by
  intro l
  induction l with
  | nil => intro acc; rfl
  | cons x xs ih =>
    intro acc
    rw [String.intercalate.go, List.foldl_cons, ih]

theorem joinRendered_eq_intercalate (sep : String) (l : List String) :
    joinRendered sep l = String.intercalate sep l := by
  cases l with
  | nil => rfl
  | cons x xs =>
    rw [joinRendered, String.intercalate, intercalate_go_eq_foldl]

theorem foldl_sep_append (sep b : String) :
    ∀ (l : List String) (a : String),
      b ++ l.foldl (fun x y => x ++ sep ++ y) a
        = l.foldl (fun x y => x ++ sep ++ y) (b ++ a) := by
  intro l
  induction l with
  | nil => intro a; rfl
  | cons c cs ih =>
    intro a
    rw [List.foldl_cons, List.foldl_cons, ih]
    simp [String.append_assoc]

/-- C3: for every `Query`, the canonical rendering emits the event-type
clause first when present (as `tm.event = '<type>'`), then the conditions in
order joined by " AND ", each rendered as `<key> <op> <operand>`; `Date`
operands render as `DATE yyyy-mm-dd` and `DateTime` operands as `TIME` plus
RFC 3339; and `Query::from(EventType::Tx).and_eq("tx.height", 3)` renders to
`tm.event = 'Tx' AND tx.height = 3`. -/
theorem c3_query_rendering :
    (∀ q : Query, q.render = q.renderSpec)
      ∧ (∀ (k : String) (op : Operand),
          Condition.render (Condition.Eq k op) = k ++ " = " ++ op.render)
      ∧ (∀ d : UtcDate,
          Operand.render (Operand.date d) = "DATE " ++ d.formatYmd)
      ∧ (∀ dt : UtcDateTime,
          Operand.render (Operand.dateTime dt) = "TIME " ++ dt.to_rfc3339)
      ∧ (Query.and_eq (Query.fromEventType EventType.Tx) "tx.height"
          (Operand.signed 3)).render = "tm.event = 'Tx' AND tx.height = 3" := by
  refine ⟨?_, fun k op => rfl, fun d => rfl, fun dt => rfl, rfl⟩
  rintro ⟨et, conds⟩
  cases et with
  | none =>
    simp [Query.render, Query.renderSpec, joinRendered_eq_intercalate]
  | some t =>
    cases conds with
    | nil =>
      simp [Query.render, Query.renderSpec, joinRendered, String.intercalate,
        String.intercalate.go]
    | cons c cs =>
      simp only [Query.render, Query.renderSpec, List.isEmpty_cons,
        List.map_cons, List.singleton_append, String.intercalate,
        intercalate_go_eq_foldl, joinRendered, List.foldl_cons]
      rw [if_neg (fun h => Bool.false_ne_true h)]
      rw [foldl_sep_append]

theorem escape_foldl (l : List Char) :
    ∀ acc : List Char,
      l.foldl
        (fun acc ch =>
          if ch == '\\' || ch == '\'' then acc ++ ['\\', ch] else acc ++ [ch])
        acc
        = acc ++ escapeChars l := by
  induction l with
  | nil => intro acc; simp [escapeChars]
  | cons c cs ih =>
    intro acc
    rw [List.foldl_cons, ih, escapeChars]
    by_cases h : c = '\\' ∨ c = '\''
    · simp [h, List.append_assoc]
    · simp only [not_or] at h
      simp [h.1, h.2, List.append_assoc]

/-- C4: escaping of string operands and `Contains` substrings prefixes each
backslash and each single quote with a backslash and wraps the result in
single quotes (and, being a total function, never fails); in particular
`Query::eq("key", "\'value'")` renders with both characters escaped. -/
theorem c4_escaping :
    (∀ s : String, escape s = escapeSpec s)
      ∧ (∀ k op : String,
          Condition.render (Condition.Contains k op)
            = k ++ " CONTAINS " ++ escape op)
      ∧ (∀ s : String, (Operand.string s).render = escape s)
      ∧ (Query.eq "key" (Operand.string "\\'value'")).render
          = "key = '\\\\\\'value\\''" := by
  refine ⟨?_, fun k op => rfl, fun s => rfl, rfl⟩
  intro s
  simp only [escape, escapeSpec]
  rw [escape_foldl]
  rfl

/-- C9: rendering is deterministic (a function of the `Query` value alone,
so the same construction always renders identically and rendering twice
yields identical strings), and each chaining call only appends its condition
at the end, preserving insertion order and leaving the event type and the
existing conditions unchanged. -/
theorem c9_chaining_appends :
    (∀ q₁ q₂ : Query, q₁ = q₂ → q₁.render = q₂.render)
      ∧ (∀ (q : Query) (k : String) (v : Operand),
          (q.and_eq k v).event_type = q.event_type
            ∧ (q.and_eq k v).conditions = q.conditions ++ [Condition.Eq k v])
      ∧ (∀ (q : Query) (k : String) (v : Operand),
          (q.and_lt k v).event_type = q.event_type
            ∧ (q.and_lt k v).conditions = q.conditions ++ [Condition.Lt k v])
      ∧ (∀ (q : Query) (k : String) (v : Operand),
          (q.and_lte k v).event_type = q.event_type
            ∧ (q.and_lte k v).conditions = q.conditions ++ [Condition.Lte k v])
      ∧ (∀ (q : Query) (k : String) (v : Operand),
          (q.and_gt k v).event_type = q.event_type
            ∧ (q.and_gt k v).conditions = q.conditions ++ [Condition.Gt k v])
      ∧ (∀ (q : Query) (k : String) (v : Operand),
          (q.and_gte k v).event_type = q.event_type
            ∧ (q.and_gte k v).conditions = q.conditions ++ [Condition.Gte k v])
      ∧ (∀ (q : Query) (k v : String),
          (q.and_contains k v).event_type = q.event_type
            ∧ (q.and_contains k v).conditions
                = q.conditions ++ [Condition.Contains k v])
      ∧ (∀ (q : Query) (k : String),
          (q.and_exists k).event_type = q.event_type
            ∧ (q.and_exists k).conditions
                = q.conditions ++ [Condition.Exists k]) :=
  ⟨fun _ _ h => h ▸ rfl,
   fun _ _ _ => ⟨rfl, rfl⟩, fun _ _ _ => ⟨rfl, rfl⟩, fun _ _ _ => ⟨rfl, rfl⟩,
   fun _ _ _ => ⟨rfl, rfl⟩, fun _ _ _ => ⟨rfl, rfl⟩, fun _ _ _ => ⟨rfl, rfl⟩,
   fun _ _ => ⟨rfl, rfl⟩⟩

/-- Witness for C9: two identically-built queries render identically. -/
theorem c9_chaining_appends_witness :
    (Query.and_eq (Query.fromEventType EventType.Tx) "tx.height"
        (Operand.signed 3)).render
      = (Query.and_eq (Query.fromEventType EventType.Tx) "tx.height"
        (Operand.signed 3)).render :=
  c9_chaining_appends.1 _ _ rfl

theorem waitLoop_all_fail (health : Nat → Bool) (t : Nat) :
    ∀ n i : Nat, (∀ j, i ≤ j → j ≤ i + n → health j = false) →
      waitLoop health t n i
        = Except.error (Error.client_internal_error
            ("timed out waiting for healthy response after "
              ++ toString t ++ "ms")) := by
  intro n
  induction n with
  | zero =>
    intro i h
    rw [waitLoop, h i le_rfl (by omega)]
    rfl
  | succ n ih =>
    intro i h
    rw [waitLoop, h i le_rfl (by omega)]
    exact ih (i + 1) (fun j h1 h2 => h j (by omega) (by omega))

theorem waitLoop_success (health : Nat → Bool) (t : Nat) :
    ∀ n i k : Nat, i ≤ k → k ≤ i + n → health k = true →
      (∀ j, i ≤ j → j < k → health j = false) →
      waitLoop health t n i = Except.ok () := by
  intro n
  induction n with
  | zero =>
    intro i k h1 h2 hk _
    have hik : i = k := by omega
    subst hik
    rw [waitLoop, hk]
    rfl
  | succ n ih =>
    intro i k h1 h2 hk hfail
    by_cases hik : i = k
    · subst hik
      rw [waitLoop, hk]
      rfl
    · rw [waitLoop, hfail i le_rfl (by omega)]
      exact ih (i + 1) k (by omega) (by omega) hk
        (fun j hj1 hj2 => hfail j (by omega) hj2)

/-- C5: `wait_until_healthy` probes `/health` once per fixed poll interval
(one probe per loop iteration, `timeout / 200ms` retries after the first
probe); it returns `Ok` as soon as a probe succeeds, and if every probe up
to the deadline fails it fails deterministically with a
`ClientInternalError` carrying the elapsed timeout in milliseconds. -/
theorem c5_wait_until_healthy :
    (∀ (health : Nat → Bool) (timeoutMs : Nat),
        (∀ i, i ≤ timeoutMs / pollIntervalMs → health i = false) →
        wait_until_healthy health timeoutMs
          = Except.error (Error.client_internal_error
              ("timed out waiting for healthy response after "
                ++ toString timeoutMs ++ "ms")))
      ∧ (∀ (health : Nat → Bool) (timeoutMs k : Nat),
          k ≤ timeoutMs / pollIntervalMs → health k = true →
          (∀ j, j < k → health j = false) →
          wait_until_healthy health timeoutMs = Except.ok ()) := by
  constructor
  · intro health timeoutMs h
    exact waitLoop_all_fail health timeoutMs (timeoutMs / pollIntervalMs) 0
      (fun j _ hj => h j (by omega))
  · intro health timeoutMs k hk hsucc hfail
    exact waitLoop_success health timeoutMs (timeoutMs / pollIntervalMs) 0 k
      (by omega) (by omega) hsucc (fun j _ hj => hfail j hj)

/-- Witness for C5: with a 1000ms deadline (5 retries), a probe stream that
always fails times out carrying 1000ms, and one whose first success is the
third probe returns Ok. -/
theorem c5_wait_until_healthy_witness :
    wait_until_healthy (fun _ => false) 1000
        = Except.error (Error.client_internal_error
            ("timed out waiting for healthy response after "
              ++ toString 1000 ++ "ms"))
      ∧ wait_until_healthy (fun i => i == 2) 1000 = Except.ok () :=
  ⟨c5_wait_until_healthy.1 (fun _ => false) 1000 (fun _ _ => rfl),
   c5_wait_until_healthy.2 (fun i => i == 2) 1000 2 (by decide) rfl
    (fun j hj => by
      have : j = 0 ∨ j = 1 := by omega
      rcases this with rfl | rfl <;> rfl)⟩

theorem validatorsAllLoop_conv {V : Type} (resp : Nat → ValidatorsResponse V)
    (k : Nat)
    (hconv : i32ofNat (pagesConcat resp k).length = (resp k).total)
    (hbefore : ∀ j, 0 < j → j < k →
      i32ofNat (pagesConcat resp j).length ≠ (resp j).total) :
    ∀ fuel n : Nat, n < k → k ≤ n + fuel →
      validatorsAllLoop (fun p => Except.ok (resp p)) fuel (n + 1)
          (pagesConcat resp n)
        = some (Except.ok
            ⟨(resp k).block_height, pagesConcat resp k, (resp k).total⟩) := by
  intro fuel
  induction fuel with
  | zero => intro n h1 h2; omega
  | succ fuel ih =>
    intro n h1 h2
    rw [validatorsAllLoop]
    show (if i32ofNat (pagesConcat resp n ++ (resp (n + 1)).validators).length
            = (resp (n + 1)).total then _ else _) = _
    by_cases hk : n + 1 = k
    · subst hk
      rw [if_pos (by rw [← pagesConcat]; exact hconv)]
      rw [← pagesConcat]
    · rw [if_neg (by rw [← pagesConcat]; exact hbefore (n + 1) (by omega) (by omega))]
      have := ih (n + 1) (by omega) (by omega)
      rw [← pagesConcat]
      exact this

theorem validatorsAllLoop_never {V : Type} (resp : Nat → ValidatorsResponse V) :
    ∀ fuel n : Nat,
      (∀ j, n < j → j ≤ n + fuel →
        i32ofNat (pagesConcat resp j).length ≠ (resp j).total) →
      validatorsAllLoop (fun p => Except.ok (resp p)) fuel (n + 1)
          (pagesConcat resp n)
        = none := by
  intro fuel
  induction fuel with
  | zero => intro n _; rfl
  | succ fuel ih =>
    intro n hnever
    rw [validatorsAllLoop]
    show (if i32ofNat (pagesConcat resp n ++ (resp (n + 1)).validators).length
            = (resp (n + 1)).total then _ else _) = _
    rw [if_neg (by
      rw [← pagesConcat]; exact hnever (n + 1) (by omega) (by omega))]
    rw [← pagesConcat]
    exact ih (n + 1) (fun j h1 h2 => hnever j (by omega) (by omega))

/-- C6: with `Paging::All`, `validators` requests successive pages starting
from page 1 and incrementing by one, concatenates the returned validators in
page order, and returns the combined response exactly when the accumulated
count (cast to `i32`) equals the server-reported total of the page just
received; the loop has no bound other than that convergence condition (with
no convergence it is still running after any number of iterations). -/
theorem c6_validators_paging_all :
    (∀ (V : Type) (resp : Nat → ValidatorsResponse V) (k fuel : Nat),
        0 < k → k ≤ fuel →
        i32ofNat (pagesConcat resp k).length = (resp k).total →
        (∀ j, 0 < j → j < k →
          i32ofNat (pagesConcat resp j).length ≠ (resp j).total) →
        validatorsAll (fun p => Except.ok (resp p)) fuel
          = some (Except.ok
              ⟨(resp k).block_height, pagesConcat resp k, (resp k).total⟩))
      ∧ (∀ (V : Type) (resp : Nat → ValidatorsResponse V) (fuel : Nat),
          (∀ j, 0 < j → j ≤ fuel →
            i32ofNat (pagesConcat resp j).length ≠ (resp j).total) →
          validatorsAll (fun p => Except.ok (resp p)) fuel = none) := by
  constructor
  · intro V resp k fuel hk hfuel hconv hbefore
    exact validatorsAllLoop_conv resp k hconv hbefore fuel 0 hk (by omega)
  · intro V resp fuel hnever
    exact validatorsAllLoop_never resp fuel 0
      (fun j h1 h2 => hnever j (by omega) (by omega))

/-- Witness for C6: a server reporting a total of 2 with one validator per
page converges at page 2 with the two pages concatenated in order, and a
server whose total is never reached leaves the loop running. -/
theorem c6_validators_paging_all_witness :
    validatorsAll (fun p => Except.ok (⟨10, [p], 2⟩ : ValidatorsResponse Nat)) 5
        = some (Except.ok ⟨10, [1, 2], 2⟩)
      ∧ validatorsAll
          (fun p => Except.ok (⟨10, [p], 3⟩ : ValidatorsResponse Nat)) 2
        = none := by
  constructor
  · exact c6_validators_paging_all.1 Nat (fun p => ⟨10, [p], 2⟩) 2 5
      (by decide) (by decide) (by decide)
      (fun j h1 h2 => by
        have : j = 1 := by omega
        subst this
        decide)
  · exact c6_validators_paging_all.2 Nat (fun p => ⟨10, [p], 3⟩) 2
      (fun j h1 h2 => by
        have : j = 1 ∨ j = 2 := by omega
        rcases this with rfl | rfl <;> decide)

/-- C2 counterexample: the claim says every envelope that parses
successfully into a `Wrapper` has exactly one of `result`/`error` present,
but the wrapper's two fields are independent `Option`s, so an envelope
carrying both a result and an error parses successfully into a wrapper in
which both are present. -/
theorem c2_parse_counterexample :
    decodeWrapper decodeNatPayload decodeErrorPayload
        (Json.obj [("jsonrpc", Json.str "2.0"), ("id", Json.num 1),
          ("result", Json.num 42), ("error", Json.str "boom")])
      = some (Wrapper.mk ⟨"2.0"⟩ (Id.num 1) (some 42)
          (some (Error.server_error "boom")))
      ∧ (Wrapper.mk ⟨"2.0"⟩ (Id.num 1) (some (42 : Nat))
          (some (Error.server_error "boom"))).result.isSome = true
      ∧ (Wrapper.mk ⟨"2.0"⟩ (Id.num 1) (some (42 : Nat))
          (some (Error.server_error "boom"))).error.isSome = true :=
  ⟨rfl, rfl, rfl⟩

/-- C2 (amended): whenever the whole decode (`Response::from_string` /
`from_reader`, i.e. parse plus `into_result`) succeeds, the parsed wrapper
had the result present and the error absent — exactly one of the two.  The
parse step alone does not enforce this. -/
theorem c2_parse_amended {R : Type} (decR : Json → Option R)
    (decE : Json → Option Error) (j : Json) (r : R)
    (h : from_string decR decE j = Except.ok r) :
    ∃ w : Wrapper R,
      decodeWrapper decR decE j = some w
        ∧ w.result = some r ∧ w.error = none := by
  unfold from_string at h
  cases hw : decodeWrapper decR decE j with
  | none => rw [hw] at h; exact absurd h (by simp)
  | some w =>
    rw [hw] at h
    have h2 : Wrapper.into_result w = Except.ok r := h
    refine ⟨w, rfl, ?_⟩
    unfold Wrapper.into_result at h2
    cases hv : w.jsonrpc.ensure_supported with
    | error e => rw [hv] at h2; exact absurd h2 (by simp)
    | ok u =>
      rw [hv] at h2
      cases he : w.error with
      | some e => rw [he] at h2; exact absurd h2 (by simp)
      | none =>
        rw [he] at h2
        cases hr : w.result with
        | none => rw [hr] at h2; exact absurd h2 (by simp)
        | some r0 =>
          rw [hr] at h2
          simp only [Except.ok.injEq] at h2
          exact ⟨congrArg some h2, rfl⟩

/-- Witness for C2 (amended) at a concrete result-only envelope. -/
theorem c2_parse_amended_witness :
    ∃ w : Wrapper Nat,
      decodeWrapper decodeNatPayload decodeErrorPayload
          (Json.obj [("jsonrpc", Json.str "2.0"), ("id", Json.num 1),
            ("result", Json.num 42)])
        = some w
        ∧ w.result = some 42 ∧ w.error = none :=
  c2_parse_amended decodeNatPayload decodeErrorPayload
    (Json.obj [("jsonrpc", Json.str "2.0"), ("id", Json.num 1),
      ("result", Json.num 42)]) 42 rfl

end TmRpc
